import Mathlib

namespace Thunderclap

/-- One row of the team_refresh_status table
(app/models/team_refresh_status.py, columns of the model). -/
structure RefreshStatusRow where
  team_id : Nat
  status : String
  phase : Option String
  progress_percent : Int
  started_at : Option Int
  completed_at : Option Int
  error_message : Option String
  updated_at : Int
  deriving Repr, DecidableEq

/-- A freshly created row, as built by TeamRefreshStatus.get_status when no row
exists: status idle, progress 0, all nullable columns null
(team_refresh_status.py lines 74-78, with the column defaults of lines 8-17). -/
def freshRow (teamId : Nat) (now : Int) : RefreshStatusRow :=
  { team_id := teamId
    status := "idle"
    phase := none
    progress_percent := 0
    started_at := none
    completed_at := none
    error_message := none
    updated_at := now }

/-- TeamRefreshStatus.update_status (team_refresh_status.py lines 33-68),
applied to an existing row.  Arguments that are None in Python are passed as
Option.none.  The updated_at column is refreshed by the ORM onupdate hook at
commit time.  Note the guard on the running branch: started_at, completed_at
and error_message are only (re)initialised when started_at is still null. -/
def updateStatus (row : RefreshStatusRow) (now : Int)
    (status phase : Option String) (progress : Option Int)
    (error : Option String) : RefreshStatusRow :=
  let r1 :=
    match status with
    | none => row
    | some s =>
      let r := { row with status := s }
      if s = "running" then
        if r.started_at = none then
          { r with started_at := some now, completed_at := none,
                   error_message := none }
        else r
      else if s = "completed" ∨ s = "failed" then
        { r with completed_at := some now }
      else r
  let r2 := match phase with
    | none => r1
    | some p => { r1 with phase := some p }
  let r3 := match progress with
    | none => r2
    | some q => { r2 with progress_percent := q }
  let r4 := match error with
    | none => r3
    | some e => { r3 with error_message := some e }
  { r4 with updated_at := now }

/-- The reset applied by cleanup_stuck_refreshes (app/__init__.py lines
104-118) to a single row: a row that is running and whose updated_at is older
than five minutes (300 s) is reset to idle, phase idle, progress 0, and an
explanatory error message; every other row is untouched. -/
def resetStuck (now : Int) (r : RefreshStatusRow) : RefreshStatusRow :=
  if r.status = "running" ∧ r.updated_at < now - 300 then
    { r with status := "idle", phase := some "idle", progress_percent := 0,
             error_message := some "Reset due to server restart" }
  else r

/-- cleanup_stuck_refreshes (app/__init__.py lines 95-128) over the whole
table. -/
def cleanupStuckRefreshes (now : Int) (rows : List RefreshStatusRow) :
    List RefreshStatusRow :=
  rows.map (resetStuck now)

/-- RefreshScheduler.refresh_single_team (refresh_scheduler.py lines 100-128).
Returns the response message together with the number of pipeline runs
launched on background threads by this call.  A missing team raises
ValueError; a row whose status is running short-circuits with the
already-in-progress message and starts nothing; otherwise exactly one
background refresh thread is started. -/
def refreshSingleTeam (teamExists : Bool) (row : RefreshStatusRow) :
    Except String (String × Nat) :=
  if teamExists = false then
    Except.error "Team not found"
  else if row.status = "running" then
    Except.ok ("Refresh already in progress", 0)
  else
    Except.ok ("Refresh started", 1)

/-- TeamRefreshService.PHASE_PROGRESS_MAP (team_refresh_service.py lines
31-39): the fixed phase to progress-band table. -/
def PHASE_PROGRESS_MAP : List (String × (Nat × Nat)) :=
  [("collecting_matches", (0, 20)),
   ("filtering_matches", (20, 30)),
   ("fetching_matches", (30, 60)),
   ("linking_data", (60, 75)),
   ("calculating_stats", (75, 85)),
   ("updating_ranks", (85, 90)),
   ("player_details", (90, 100))]

/-- The incremental progress values written inside a per-item loop of
refresh_team_data: item idx (1-based, here i+1 for i < steps) of steps writes
base + int((idx / steps) * scale).  The write only happens on the iterations
selected by ok (e.g. a match fetch that returned data, a roster entry whose
player exists).  Python computes the inner expression with float division;
for these operands floor of the float product and Nat division agree on the
bounds and monotonicity proved below. -/
def loopProgressWrites (steps : Nat) (ok : List Bool) (base scale : Nat) :
    List Nat :=
  ((List.range steps).filter (fun i => ok.getD i false)).map
    (fun i => base + ((i + 1) * scale) / steps)

/-- The full sequence of progress_percent values written to the status row by
one run of refresh_team_data (team_refresh_service.py lines 41-115) that
reaches completion: the initial running write at 0, the phase-transition
writes at 20/30/60/75/85/90, the incremental writes of phases 3 (30-60,
team_refresh_service.py line 211), 6 (85-90, line 387) and 7 (90-100, line
451), and the final completed write at 100.  n is the number of missing
matches, m the roster size; fOk marks fetch iterations that stored data, rOk
rank iterations that reached their progress write, present roster entries
with a player. -/
def refreshProgressWrites (n m : Nat) (fOk rOk present : List Bool) :
    List Nat :=
  [0, 20, 30] ++ loopProgressWrites n fOk 30 30
    ++ [60, 75, 85] ++ loopProgressWrites m rOk 85 5
    ++ [90] ++ loopProgressWrites m present 90 10 ++ [100]

/-- The sequence of phase names written to the status row by the same run
(every update_status call of refresh_team_data that passes a phase; the final
completed write passes none).  No call site of the run writes any other
phase string; in particular set_rate_limited (team_refresh_service.py lines
148-154) has no caller anywhere in the codebase. -/
def refreshPhaseWrites (n m : Nat) (fOk rOk present : List Bool) :
    List String :=
  ["collecting_matches", "filtering_matches", "fetching_matches"]
    ++ ((List.range n).filter (fun i => fOk.getD i false)).map
        (fun _ => "fetching_matches")
    ++ ["linking_data", "calculating_stats", "updating_ranks"]
    ++ ((List.range m).filter (fun i => rOk.getD i false)).map
        (fun _ => "updating_ranks")
    ++ ["player_details"]
    ++ ((List.range m).filter (fun i => present.getD i false)).map
        (fun _ => "player_details")

/-- The seven pipeline phase names, i.e. the keys of PHASE_PROGRESS_MAP. -/
def pipelinePhases : List String := PHASE_PROGRESS_MAP.map Prod.fst

/-- One HTTP attempt outcome as discriminated by RiotAPIClient._make_request
(riot_client.py lines 111-157): success with a JSON payload (abstracted to a
Nat), 429 with a Retry-After header value, 404, a 5xx status, any other
status, a timeout exception, or another request exception. -/
inductive RiotResponse where
  | ok (payload : Nat)
  | tooMany (retryAfter : Nat)
  | notFound
  | serverErr
  | clientErr
  | timeout
  | connErr
  deriving Repr, DecidableEq

/-- What one _make_request call did: the returned value (Python returns the
JSON payload or None — its return type has no throttling variant), the
time.sleep durations it performed internally, in order, and how many HTTP
attempts it used. -/
structure RequestTrace where
  result : Option Nat
  sleeps : List Nat
  attempts : Nat
  deriving Repr, DecidableEq

/-- The attempt loop of _make_request (riot_client.py lines 111-159): resp
gives the outcome of each HTTP attempt by index; remaining is the number of
loop iterations left.  On 429 the client sleeps the advertised Retry-After
and retries (line 124-129); on 5xx or timeout it sleeps 2^attempt and
retries; on a request exception it returns None on the last attempt and
otherwise backs off and retries; 404 and other statuses return None at
once. -/
def makeRequestAux (resp : Nat → RiotResponse) :
    Nat → Nat → List Nat → RequestTrace
  | 0, attempt, sleeps => ⟨none, sleeps.reverse, attempt⟩
  | remaining + 1, attempt, sleeps =>
    match resp attempt with
    | .ok p => ⟨some p, sleeps.reverse, attempt + 1⟩
    | .tooMany r => makeRequestAux resp remaining (attempt + 1) (r :: sleeps)
    | .notFound => ⟨none, sleeps.reverse, attempt + 1⟩
    | .serverErr => makeRequestAux resp remaining (attempt + 1) (2 ^ attempt :: sleeps)
    | .clientErr => ⟨none, sleeps.reverse, attempt + 1⟩
    | .timeout => makeRequestAux resp remaining (attempt + 1) (2 ^ attempt :: sleeps)
    | .connErr =>
      if remaining = 0 then ⟨none, sleeps.reverse, attempt + 1⟩
      else makeRequestAux resp remaining (attempt + 1) (2 ^ attempt :: sleeps)

/-- RiotAPIClient._make_request with its default max_retries = 3. -/
def makeRequest (resp : Nat → RiotResponse) : RequestTrace :=
  makeRequestAux resp 3 0 []

/-- TeamRefreshService._collect_tournament_match_ids (team_refresh_service.py
lines 164-185): the per-roster-member tournament match-id lists are unioned
into one set.  A member whose history lookup fails contributes nothing and is
modelled by an empty list.  No per-member reference counts are recorded and
no identifier is discarded. -/
def collectTournamentMatchIds (histories : List (List Nat)) : Finset Nat :=
  histories.foldl (fun acc h => acc ∪ h.toFinset) ∅

/-- TeamRefreshService._get_existing_match_ids (lines 187-194): the subset of
the collected identifiers already present in storage. -/
def getExistingMatchIds (stored : Finset Nat) (matchIds : Finset Nat) :
    Finset Nat :=
  matchIds ∩ stored

/-- The fetch set of refresh_team_data (line 70): collected minus existing. -/
def missingMatchIds (histories : List (List Nat)) (stored : Finset Nat) :
    Finset Nat :=
  collectTournamentMatchIds histories \
    getExistingMatchIds stored (collectTournamentMatchIds histories)

/-- TeamRefreshService._fetch_missing_matches (lines 196-224) issues exactly
one riot_client.get_match call per element of the fetch set (line 204),
whatever the call returns. -/
def fetchMatchCallCount (histories : List (List Nat)) (stored : Finset Nat) :
    Nat :=
  (missingMatchIds histories stored).card

/-- How many distinct roster members reference an identifier (one history per
member). -/
def refCount (histories : List (List Nat)) (i : Nat) : Nat :=
  (histories.filter (fun h => i ∈ h)).length

/-- The roster-of-5 scenario of the claim: members 1-3 each reference
identifiers 1-9 (so those nine have three distinct referencing members),
member 4 references 10 and 11, member 5 references 12. -/
def scenarioHistories : List (List Nat) :=
  [[1, 2, 3, 4, 5, 6, 7, 8, 9],
   [1, 2, 3, 4, 5, 6, 7, 8, 9],
   [1, 2, 3, 4, 5, 6, 7, 8, 9],
   [10, 11],
   [12]]

/-- Storage already holds four of the nine well-referenced identifiers. -/
def scenarioStored : Finset Nat := {1, 2, 3, 4}

/-- One row of match_participants as _link_matches_to_team sees it
(app/models + team_refresh_service.py lines 244-292). -/
structure Participant where
  rowId : Nat
  match_id : Nat
  player_id : Option Nat
  win : Bool
  team_id : Option Nat
  deriving Repr, DecidableEq

/-- One row of matches, with the two nullable team references. -/
structure MatchRow where
  id : Nat
  winning_team_id : Option Nat
  losing_team_id : Option Nat
  deriving Repr, DecidableEq

/-- Whether a participant row matches MatchParticipant.player_id.in_(roster):
a null player_id never matches. -/
def isRosterParticipant (roster : List Nat) (p : Participant) : Bool :=
  match p.player_id with
  | none => false
  | some pid => roster.contains pid

/-- The team_participants of one match (team_refresh_service.py lines
269-272): participant rows of that match whose player_id is in the roster.
Its length is the group-by count of lines 251-260. -/
def teamParticipants (roster : List Nat) (ps : List Participant) (m : Nat) :
    List Participant :=
  ps.filter (fun p => p.match_id == m && isRosterParticipant roster p)

/-- The per-match update of _link_matches_to_team (lines 263-289): a match
with at least 3 roster participants gets its winning or losing team reference
set according to the first roster participant's win flag; every other match
row is left untouched (nothing is ever cleared). -/
def linkOneMatch (teamId : Nat) (roster : List Nat) (ps : List Participant)
    (m : MatchRow) : MatchRow :=
  let tp := teamParticipants roster ps m.id
  if 3 ≤ tp.length then
    match tp.head? with
    | none => m
    | some p0 =>
      if p0.win then { m with winning_team_id := some teamId }
      else { m with losing_team_id := some teamId }
  else m

/-- The per-participant update of _link_matches_to_team (lines 286-287): a
roster participant of a match with at least 3 roster participants whose match
row exists gets team_id set; every other participant row is untouched. -/
def linkParticipant (teamId : Nat) (roster : List Nat) (ms : List MatchRow)
    (ps : List Participant) (p : Participant) : Participant :=
  if isRosterParticipant roster p = true ∧
      3 ≤ (teamParticipants roster ps p.match_id).length ∧
      ms.any (fun m => m.id == p.match_id) = true then
    { p with team_id := some teamId }
  else p

/-- TeamRefreshService._link_matches_to_team over the whole tables. -/
def linkMatchesToTeam (teamId : Nat) (roster : List Nat) (ms : List MatchRow)
    (ps : List Participant) : List MatchRow × List Participant :=
  (ms.map (linkOneMatch teamId roster ps),
   ps.map (linkParticipant teamId roster ms ps))

/-- A match previously linked to team 1 through three overlapping players. -/
def c4Match : MatchRow := { id := 7, winning_team_id := some 1, losing_team_id := none }

/-- After the roster shrank, only one of the overlapping players is still a
roster member (player 10); the stale participant link is still recorded. -/
def c4Participants : List Participant :=
  [{ rowId := 1, match_id := 7, player_id := some 10, win := true, team_id := some 1 }]

/-- A full current roster of three players for the positive linking case. -/
def c4Roster : List Nat := [10, 11, 12]

/-- A not-yet-linked roster participant of match 7. -/
def c4P1 : Participant :=
  { rowId := 1, match_id := 7, player_id := some 10, win := true, team_id := none }

/-- Match 7 with all three roster players participating, none linked yet. -/
def c4FullParticipants : List Participant :=
  [c4P1,
   { rowId := 2, match_id := 7, player_id := some 11, win := true, team_id := none },
   { rowId := 3, match_id := 7, player_id := some 12, win := true, team_id := none }]

/-- The not-yet-linked row of match 7. -/
def c4UnlinkedMatch : MatchRow :=
  { id := 7, winning_team_id := none, losing_team_id := none }

/-- RateLimiter (riot_client.py lines 12-24): the two capacities and the two
timestamp queues (oldest first).  Timestamps are rationals standing for
time.time() instants. -/
structure RateLimiter where
  requests_per_second : Nat
  requests_per_two_minutes : Nat
  short_term_requests : List ℚ
  long_term_requests : List ℚ
  deriving Repr, DecidableEq

/-- RateLimiter.__init__ (riot_client.py lines 18-24): stores the two limits
and starts with empty queues.  There is no validation of the limits; the
constructor cannot fail. -/
def rateLimiterInit (rps rp2m : Nat) : RateLimiter :=
  { requests_per_second := rps
    requests_per_two_minutes := rp2m
    short_term_requests := []
    long_term_requests := [] }

/-- The while-popleft cleaning loops of wait_if_needed (riot_client.py lines
31-36): entries strictly older than the cutoff are removed from the front. -/
def cleanQueue (q : List ℚ) (cutoff : ℚ) : List ℚ :=
  q.dropWhile (fun x => decide (x < cutoff))

/-- The limiter state after both cleaning loops ran at instant now. -/
def cleanState (st : RateLimiter) (now : ℚ) : RateLimiter :=
  { st with
    short_term_requests := cleanQueue st.short_term_requests (now - 1)
    long_term_requests := cleanQueue st.long_term_requests (now - 120) }

/-- Recording the admission (riot_client.py lines 56-58): the instant is
appended to both queues. -/
def appendNow (st : RateLimiter) (now : ℚ) : RateLimiter :=
  { st with
    short_term_requests := st.short_term_requests ++ [now]
    long_term_requests := st.long_term_requests ++ [now] }

/-- What one pass of the wait_if_needed body does: sleep until an instant and
re-enter, die on indexing an empty queue (which is what a zero capacity
causes at line 41 resp. 49), or record the admission.  The boundary flag of
granted is true when a full window was fallen through because its computed
wait time was exactly zero (wait_time > 0 fails at line 42 resp. 50 while the
window is still at capacity). -/
inductive LimiterPass where
  | sleepUntil (st : RateLimiter) (t : ℚ)
  | indexErr
  | granted (st : RateLimiter) (t : ℚ) (boundary : Bool)
  deriving Repr, DecidableEq

/-- The long-window half of the wait_if_needed body (riot_client.py lines
47-58), entered with the cleaned state; b records whether the short window
was fallen through at its boundary. -/
def longCheckStage (st1 : RateLimiter) (now : ℚ) (b : Bool) : LimiterPass :=
  if st1.requests_per_two_minutes ≤ st1.long_term_requests.length then
    match st1.long_term_requests with
    | [] => LimiterPass.indexErr
    | oldest :: _ =>
      if 0 < 120 - (now - oldest) then LimiterPass.sleepUntil st1 (oldest + 120)
      else LimiterPass.granted (appendNow st1 now) now true
  else LimiterPass.granted (appendNow st1 now) now b

/-- One pass of RateLimiter.wait_if_needed (riot_client.py lines 26-58):
clean both queues, check the short window (sleep until its oldest entry plus
one second when full and the wait is positive), then the long window, then
record.  Sleeping is modelled as advancing the clock exactly by the computed
wait time, which is when the recursive re-check happens. -/
def waitIfNeededPass (st : RateLimiter) (now : ℚ) : LimiterPass :=
  if st.requests_per_second ≤ (cleanQueue st.short_term_requests (now - 1)).length then
    match cleanQueue st.short_term_requests (now - 1) with
    | [] => LimiterPass.indexErr
    | oldest :: _ =>
      if 0 < 1 - (now - oldest) then LimiterPass.sleepUntil (cleanState st now) (oldest + 1)
      else longCheckStage (cleanState st now) now true
  else longCheckStage (cleanState st now) now false

/-- The result of a whole wait_if_needed call (with its recursive
re-checks). -/
inductive LimiterOutcome where
  | granted (st : RateLimiter) (t : ℚ) (boundary : Bool)
  | indexErr
  | fuelOut
  deriving Repr, DecidableEq

/-- RateLimiter.wait_if_needed: iterate passes until an admission is recorded
(fuel bounds the number of re-checks; the sources recurse without bound). -/
def waitIfNeeded : Nat → RateLimiter → ℚ → LimiterOutcome
  | 0, _, _ => LimiterOutcome.fuelOut
  | fuel + 1, st, now =>
    match waitIfNeededPass st now with
    | LimiterPass.sleepUntil st1 t => waitIfNeeded fuel st1 t
    | LimiterPass.indexErr => LimiterOutcome.indexErr
    | LimiterPass.granted st1 t b => LimiterOutcome.granted st1 t b

/-- A sequence of wait_if_needed calls against one limiter: each caller asks
at its own instant, the physical clock never goes backwards (the effective
instant is at least the previous admission instant), and the admission
timestamps with their boundary flags are collected. -/
def runLimiter (fuel : Nat) : RateLimiter → ℚ → List ℚ → Option (List (ℚ × Bool))
  | _, _, [] => some []
  | st, clock, t :: ts =>
    match waitIfNeeded fuel st (if clock ≤ t then t else clock) with
    | LimiterOutcome.granted st1 t1 b =>
      match runLimiter fuel st1 t1 ts with
      | some rest => some ((t1, b) :: rest)
      | none => none
    | _ => none

/-- How many of the recorded timestamps lie inside the closed window
[a, a + w]. -/
def windowCount (w a : ℚ) (ts : List ℚ) : Nat :=
  (ts.filter (fun x => decide (a ≤ x) && decide (x ≤ a + w))).length

/-- The queue of one window is always a suffix of the full admission trace,
and every trace entry already dropped from it is strictly older than one
window length before the clock. -/
def QueueSuffix (q trace : List ℚ) (c w : ℚ) : Prop :=
  ∃ d, trace = d ++ q ∧ ∀ x ∈ d, x < c - w

/-- Invariant tying a limiter state to the trace of all admissions so far and
the current clock: every admission is in the past, both queues are suffixes
of the trace missing only expired entries, and no window of either kind ever
contained more admissions than its capacity. -/
structure LimInv (st : RateLimiter) (trace : List ℚ) (c : ℚ) : Prop where
  ub : ∀ x ∈ trace, x ≤ c
  qshort : QueueSuffix st.short_term_requests trace c 1
  qlong : QueueSuffix st.long_term_requests trace c 120
  winS : ∀ a : ℚ, windowCount 1 a trace ≤ st.requests_per_second
  winL : ∀ a : ℚ, windowCount 120 a trace ≤ st.requests_per_two_minutes

/-- A row left behind by a failed run: started_at already set and an error
message recorded (as update_status leaves it after status failed). -/
def failedRunRow : RefreshStatusRow :=
  { team_id := 1
    status := "failed"
    phase := some "fetching_matches"
    progress_percent := 42
    started_at := some 100
    completed_at := some 200
    error_message := some "boom"
    updated_at := 200 }

/-- A stale running row for the startup-recovery claim. -/
def staleRunningRow : RefreshStatusRow :=
  { team_id := 2
    status := "running"
    phase := some "fetching_matches"
    progress_percent := 55
    started_at := some 10
    completed_at := none
    error_message := none
    updated_at := 0 }

theorem loopProgressWrites_sorted (steps : Nat) (ok : List Bool)
    (base scale : Nat) :
    (loopProgressWrites steps ok base scale).Pairwise (· ≤ ·) := by
  unfold loopProgressWrites
  rw [List.pairwise_map]
  refine List.Pairwise.imp ?_
    (((List.pairwise_lt_range steps).sublist (List.filter_sublist _)))
  intro i j hij
  exact Nat.add_le_add_left (Nat.div_le_div_right
    (Nat.mul_le_mul_right _ (by omega))) base

theorem loopProgressWrites_bounds (steps : Nat) (ok : List Bool)
    (base scale : Nat) :
    ∀ x ∈ loopProgressWrites steps ok base scale, base ≤ x ∧ x ≤ base + scale := by
  intro x hx
  unfold loopProgressWrites at hx
  rw [List.mem_map] at hx
  obtain ⟨i, hi, rfl⟩ := hx
  have hilt : i < steps := by
    have := (List.mem_filter.1 hi).1
    exact List.mem_range.1 this
  constructor
  · exact Nat.le_add_right base _
  · have h1 : (i + 1) * scale ≤ steps * scale :=
      Nat.mul_le_mul_right _ (by omega)
    have h2 : (i + 1) * scale / steps ≤ steps * scale / steps :=
      Nat.div_le_div_right h1
    have h3 : steps * scale / steps = scale := by
      rw [Nat.mul_comm]
      exact Nat.mul_div_cancel _ (by omega)
    omega

theorem pairwise_le_append_of_bound {l₁ l₂ : List Nat} (b : Nat)
    (h₁ : l₁.Pairwise (· ≤ ·)) (h₂ : l₂.Pairwise (· ≤ ·))
    (hub : ∀ x ∈ l₁, x ≤ b) (hlb : ∀ y ∈ l₂, b ≤ y) :
    (l₁ ++ l₂).Pairwise (· ≤ ·) :=
  List.pairwise_append.2 ⟨h₁, h₂, fun x hx y hy => (hub x hx).trans (hlb y hy)⟩

/-- C7: within one run of refresh_team_data that reaches completion, the
sequence of progress_percent values written to the status row is
non-decreasing, never exceeds 100 (and is a Nat, hence at least 0), and its
final write is exactly 100 — for every number of missing matches, every
roster size and every pattern of per-item successes. -/
theorem C7_progress_monotone_and_complete (n m : Nat)
    (fOk rOk present : List Bool) :
    (refreshProgressWrites n m fOk rOk present).Pairwise (· ≤ ·) ∧
      (∀ x ∈ refreshProgressWrites n m fOk rOk present, x ≤ 100) ∧
      (refreshProgressWrites n m fOk rOk present).getLast? = some 100 := by
  have hF := loopProgressWrites_bounds n fOk 30 30
  have hR := loopProgressWrites_bounds m rOk 85 5
  have hD := loopProgressWrites_bounds m present 90 10
  refine ⟨?_, ?_, ?_⟩
  · unfold refreshProgressWrites
    simp only [List.append_assoc]
    refine pairwise_le_append_of_bound 30 (by decide) ?_ (by decide) ?_
    · refine pairwise_le_append_of_bound 60
        (loopProgressWrites_sorted n fOk 30 30) ?_
        (fun x hx => (hF x hx).2) ?_
      · refine pairwise_le_append_of_bound 85 (by decide) ?_ (by decide) ?_
        · refine pairwise_le_append_of_bound 90
            (loopProgressWrites_sorted m rOk 85 5) ?_
            (fun x hx => (hR x hx).2) ?_
          · refine pairwise_le_append_of_bound 90 (by decide) ?_ (by decide) ?_
            · refine pairwise_le_append_of_bound 100
                (loopProgressWrites_sorted m present 90 10) (by decide)
                (fun x hx => (hD x hx).2) (by decide)
            · intro y hy
              rw [List.mem_append] at hy
              rcases hy with hy | hy
              · exact (hD y hy).1
              · simp at hy
                omega
          · intro y hy
            rw [List.mem_append] at hy
            rcases hy with hy | hy
            · simp at hy
              omega
            · rw [List.mem_append] at hy
              rcases hy with hy | hy
              · exact le_trans (by omega) (hD y hy).1
              · simp at hy
                omega
        · intro y hy
          rw [List.mem_append] at hy
          rcases hy with hy | hy
          · exact (hR y hy).1
          · rw [List.mem_append] at hy
            rcases hy with hy | hy
            · simp at hy
              omega
            · rw [List.mem_append] at hy
              rcases hy with hy | hy
              · exact le_trans (by omega) (hD y hy).1
              · simp at hy
                omega
      · intro y hy
        rw [List.mem_append] at hy
        rcases hy with hy | hy
        · simp at hy
          omega
        · rw [List.mem_append] at hy
          rcases hy with hy | hy
          · exact le_trans (by omega) (hR y hy).1
          · rw [List.mem_append] at hy
            rcases hy with hy | hy
            · simp at hy
              omega
            · rw [List.mem_append] at hy
              rcases hy with hy | hy
              · exact le_trans (by omega) (hD y hy).1
              · simp at hy
                omega
    · intro y hy
      rw [List.mem_append] at hy
      rcases hy with hy | hy
      · exact (hF y hy).1
      · rw [List.mem_append] at hy
        rcases hy with hy | hy
        · simp at hy
          omega
        · rw [List.mem_append] at hy
          rcases hy with hy | hy
          · exact le_trans (by omega) (hR y hy).1
          · rw [List.mem_append] at hy
            rcases hy with hy | hy
            · simp at hy
              omega
            · rw [List.mem_append] at hy
              rcases hy with hy | hy
              · exact le_trans (by omega) (hD y hy).1
              · simp at hy
                omega
  · intro x hx
    unfold refreshProgressWrites at hx
    simp only [List.append_assoc, List.mem_append] at hx
    rcases hx with hx | hx | hx | hx | hx | hx | hx
    · simp at hx
      omega
    · exact le_trans (hF x hx).2 (by omega)
    · simp at hx
      omega
    · exact le_trans (hR x hx).2 (by omega)
    · simp at hx
      omega
    · exact (hD x hx).2
    · simp at hx
      omega
  · unfold refreshProgressWrites
    have : [0, 20, 30] ++ loopProgressWrites n fOk 30 30
        ++ [60, 75, 85] ++ loopProgressWrites m rOk 85 5
        ++ [90] ++ loopProgressWrites m present 90 10 ++ [100]
        = ([0, 20, 30] ++ loopProgressWrites n fOk 30 30
            ++ [60, 75, 85] ++ loopProgressWrites m rOk 85 5
            ++ [90] ++ loopProgressWrites m present 90 10) ++ [100] := by
      simp [List.append_assoc]
    rw [this, List.getLast?_concat]

/-- C2 counterexample: a throttling response from upstream (429, Retry-After
5) during a fetch is handled silently inside _make_request — the call sleeps
5 seconds internally, retries, and returns the payload of the second attempt;
its return type carries no distinguishable rate-limited condition.  And the
phase values a run writes to the status row never include the synthetic
rate_limited_5s marker (set_rate_limited has no caller), so no status row
transiently shows it. -/
theorem C2_throttling_is_swallowed_internally :
    makeRequest (fun i => if i = 0 then RiotResponse.tooMany 5 else RiotResponse.ok 42)
        = { result := some 42, sleeps := [5], attempts := 2 } ∧
      ∀ ph ∈ refreshPhaseWrites 1 1 [true] [true] [true], ph ≠ "rate_limited_5s" := by
  constructor
  · rfl
  · decide

/-- C2 amended: on a throttling response the client does not surface any
distinguishable RateLimited condition — _make_request sleeps the advertised
Retry-After duration itself and retries within its attempt budget, so a 429
followed by a successful attempt yields the payload with one internal sleep
of the advertised duration and two attempts used; the pipeline never writes a
rate_limited_<seconds> phase: every phase a completed run writes is one of
the seven pipeline phase names. -/
theorem C2_internal_retry_no_surfaced_signal (r p : Nat)
    (resp : Nat → RiotResponse)
    (h0 : resp 0 = RiotResponse.tooMany r) (h1 : resp 1 = RiotResponse.ok p) :
    makeRequest resp = { result := some p, sleeps := [r], attempts := 2 } ∧
      ∀ n m fOk rOk present,
        ∀ ph ∈ refreshPhaseWrites n m fOk rOk present, ph ∈ pipelinePhases := by
  constructor
  · unfold makeRequest makeRequestAux
    rw [h0]
    unfold makeRequestAux
    rw [h1]
    simp
  · intro n m fOk rOk present ph hph
    unfold refreshPhaseWrites at hph
    simp only [List.mem_append] at hph
    rcases hph with ((((h | h) | h) | h) | h) | h
    · simp only [List.mem_cons, List.not_mem_nil, or_false] at h
      rcases h with rfl | rfl | rfl <;> decide
    · rw [List.mem_map] at h
      obtain ⟨i, _, rfl⟩ := h
      decide
    · simp only [List.mem_cons, List.not_mem_nil, or_false] at h
      rcases h with rfl | rfl | rfl <;> decide
    · rw [List.mem_map] at h
      obtain ⟨i, _, rfl⟩ := h
      decide
    · simp only [List.mem_cons, List.not_mem_nil, or_false] at h
      rcases h with rfl
      decide
    · rw [List.mem_map] at h
      obtain ⟨i, _, rfl⟩ := h
      decide

/-- C2 amended, witness: the concrete oracle answering 429 with Retry-After 5
on the first attempt and payload 42 on the second. -/
theorem C2_internal_retry_no_surfaced_signal_witness :
    makeRequest (fun i => if i = 0 then RiotResponse.tooMany 5 else RiotResponse.ok 42)
        = { result := some 42, sleeps := [5], attempts := 2 } :=
  (C2_internal_retry_no_surfaced_signal 5 42
    (fun i => if i = 0 then RiotResponse.tooMany 5 else RiotResponse.ok 42)
    rfl rfl).1

theorem mem_collectTournamentMatchIds (histories : List (List Nat)) (i : Nat) :
    i ∈ collectTournamentMatchIds histories ↔ ∃ h ∈ histories, i ∈ h := by
  have general : ∀ (l : List (List Nat)) (acc : Finset Nat),
      i ∈ l.foldl (fun a h => a ∪ h.toFinset) acc ↔
        i ∈ acc ∨ ∃ h ∈ l, i ∈ h := by
    intro l
    induction l with
    | nil => simp
    | cons hd tl ih =>
      intro acc
      simp [List.foldl_cons, ih, Finset.mem_union, or_assoc]
  have := general histories ∅
  simp only [Finset.not_mem_empty, false_or] at this
  exact this

/-- C1 counterexample: in the spec scenario (roster of 5, 12 candidate
identifiers of which 9 are referenced by at least 3 distinct members, 4 of
those 9 already stored) the pipeline performs 8 fetchMatch calls, not 5 —
_collect_tournament_match_ids applies no minimum-reference filter, so the 3
under-referenced identifiers survive into the fetch set. -/
theorem C1_scenario_makes_eight_calls :
    scenarioHistories.length = 5 ∧
      (collectTournamentMatchIds scenarioHistories).card = 12 ∧
      ((collectTournamentMatchIds scenarioHistories).filter
        (fun i => 3 ≤ refCount scenarioHistories i)).card = 9 ∧
      scenarioStored.card = 4 ∧
      (scenarioStored ⊆ (collectTournamentMatchIds scenarioHistories).filter
        (fun i => 3 ≤ refCount scenarioHistories i)) ∧
      fetchMatchCallCount scenarioHistories scenarioStored = 8 ∧
      fetchMatchCallCount scenarioHistories scenarioStored ≠ 5 := by
  refine ⟨rfl, ?_, ?_, rfl, ?_, ?_, ?_⟩ <;> decide

/-- C1 amended: no pre-filter on the number of referencing roster members
exists — an identifier enters the fetch set (and so costs one fetchMatch
call) exactly when some roster member references it and it is not already in
storage, regardless of how many distinct members reference it; in the spec
scenario this makes 12 − 4 = 8 fetchMatch calls. -/
theorem C1_fetch_set_ignores_reference_counts (histories : List (List Nat))
    (stored : Finset Nat) (i : Nat) :
    i ∈ missingMatchIds histories stored ↔
      (∃ h ∈ histories, i ∈ h) ∧ i ∉ stored := by
  unfold missingMatchIds getExistingMatchIds
  rw [Finset.mem_sdiff, Finset.mem_inter, mem_collectTournamentMatchIds]
  constructor
  · rintro ⟨hc, hni⟩
    exact ⟨hc, fun hs => hni ⟨hc, hs⟩⟩
  · rintro ⟨hc, hns⟩
    exact ⟨hc, fun h => hns h.2⟩

/-- C4 counterexample: re-running linking_data after the roster shrank below
the overlap threshold does not clear the stale link — with only 1 of 3
required roster participants left, _link_matches_to_team leaves the match row
(winning_team_id still team 1) and the participant row (team_id still team 1)
exactly as they were. -/
theorem C4_stale_link_not_cleared :
    (teamParticipants [10] c4Participants c4Match.id).length = 1 ∧
      linkMatchesToTeam 1 [10] [c4Match] c4Participants
        = ([c4Match], c4Participants) ∧
      c4Match.winning_team_id = some 1 := by
  refine ⟨?_, ?_, rfl⟩ <;> decide

/-- C4 amended: re-running linking_data sets links but never clears them —
for every match with at least 3 current-roster participants the winning or
losing reference is set by the first roster participant's win flag, while
every match (and every participant) below the overlap threshold is left
completely unchanged, stale team links included. -/
theorem C4_linking_sets_never_clears (teamId : Nat) (roster : List Nat)
    (ms : List MatchRow) (ps : List Participant) :
    linkMatchesToTeam teamId roster ms ps
        = (ms.map (linkOneMatch teamId roster ps),
           ps.map (linkParticipant teamId roster ms ps)) ∧
      (∀ m : MatchRow, (teamParticipants roster ps m.id).length < 3 →
        linkOneMatch teamId roster ps m = m) ∧
      (∀ p : Participant, (teamParticipants roster ps p.match_id).length < 3 →
        linkParticipant teamId roster ms ps p = p) ∧
      (∀ m : MatchRow, ∀ p0,
        (teamParticipants roster ps m.id).head? = some p0 →
        3 ≤ (teamParticipants roster ps m.id).length →
        linkOneMatch teamId roster ps m =
          (if p0.win then { m with winning_team_id := some teamId }
           else { m with losing_team_id := some teamId })) ∧
      (∀ p : Participant, isRosterParticipant roster p = true →
        3 ≤ (teamParticipants roster ps p.match_id).length →
        ms.any (fun m => m.id == p.match_id) = true →
        linkParticipant teamId roster ms ps p =
          { p with team_id := some teamId }) := by
  refine ⟨rfl, ?_, ?_, ?_, ?_⟩
  · intro m hlt
    unfold linkOneMatch
    rw [if_neg (by omega)]
  · intro p hlt
    unfold linkParticipant
    rw [if_neg (by omega)]
  · intro m p0 hhead hge
    unfold linkOneMatch
    rw [if_pos hge, hhead]
  · intro p hros hge hex
    unfold linkParticipant
    rw [if_pos ⟨hros, hge, hex⟩]

/-- C4 amended, witness: the concrete shrunk-roster run leaves the stale
match row untouched, and on a match with all three roster players present a
roster participant's team reference is set. -/
theorem C4_linking_sets_never_clears_witness :
    linkOneMatch 1 [10] c4Participants c4Match = c4Match ∧
      linkParticipant 1 c4Roster [c4UnlinkedMatch] c4FullParticipants c4P1
        = { c4P1 with team_id := some 1 } :=
  ⟨(C4_linking_sets_never_clears 1 [10] [c4Match] c4Participants).2.1
      c4Match (by decide),
   (C4_linking_sets_never_clears 1 c4Roster [c4UnlinkedMatch]
      c4FullParticipants).2.2.2.2 c4P1 (by decide) (by decide) (by decide)⟩

@[simp] theorem cleanState_short (st : RateLimiter) (now : ℚ) :
    (cleanState st now).short_term_requests
      = cleanQueue st.short_term_requests (now - 1) := rfl

@[simp] theorem cleanState_long (st : RateLimiter) (now : ℚ) :
    (cleanState st now).long_term_requests
      = cleanQueue st.long_term_requests (now - 120) := rfl

@[simp] theorem cleanState_rps (st : RateLimiter) (now : ℚ) :
    (cleanState st now).requests_per_second = st.requests_per_second := rfl

@[simp] theorem cleanState_rp2m (st : RateLimiter) (now : ℚ) :
    (cleanState st now).requests_per_two_minutes
      = st.requests_per_two_minutes := rfl

@[simp] theorem appendNow_short (st : RateLimiter) (now : ℚ) :
    (appendNow st now).short_term_requests
      = st.short_term_requests ++ [now] := rfl

@[simp] theorem appendNow_long (st : RateLimiter) (now : ℚ) :
    (appendNow st now).long_term_requests
      = st.long_term_requests ++ [now] := rfl

@[simp] theorem appendNow_rps (st : RateLimiter) (now : ℚ) :
    (appendNow st now).requests_per_second = st.requests_per_second := rfl

@[simp] theorem appendNow_rp2m (st : RateLimiter) (now : ℚ) :
    (appendNow st now).requests_per_two_minutes
      = st.requests_per_two_minutes := rfl

theorem queueSuffix_clean {q trace : List ℚ} {c w : ℚ}
    (h : QueueSuffix q trace c w) (now : ℚ) (hc : c ≤ now) :
    QueueSuffix (cleanQueue q (now - w)) trace now w := by
  obtain ⟨d, rfl, hd⟩ := h
  refine ⟨d ++ q.takeWhile (fun x => decide (x < now - w)), ?_, ?_⟩
  · show d ++ q = (d ++ _) ++ q.dropWhile (fun x => decide (x < now - w))
    rw [List.append_assoc, List.takeWhile_append_dropWhile]
  · intro x hx
    rw [List.mem_append] at hx
    rcases hx with hx | hx
    · have := hd x hx
      linarith
    · have := List.mem_takeWhile_imp hx
      simpa using this

theorem queueSuffix_append {q trace : List ℚ} {w now : ℚ}
    (h : QueueSuffix q trace now w) :
    QueueSuffix (q ++ [now]) (trace ++ [now]) now w := by
  obtain ⟨d, rfl, hd⟩ := h
  exact ⟨d, by rw [List.append_assoc], hd⟩

theorem windowCount_append (w a : ℚ) (l₁ l₂ : List ℚ) :
    windowCount w a (l₁ ++ l₂) = windowCount w a l₁ + windowCount w a l₂ := by
  unfold windowCount
  rw [List.filter_append, List.length_append]

theorem windowCount_le_length (w a : ℚ) (l : List ℚ) :
    windowCount w a l ≤ l.length :=
  List.length_filter_le _ _

theorem windowCount_eq_zero_of_old {w a c : ℚ} {d : List ℚ}
    (hd : ∀ x ∈ d, x < c - w) (hc : c ≤ a + w) : windowCount w a d = 0 := by
  unfold windowCount
  rw [List.length_eq_zero, List.filter_eq_nil_iff]
  intro x hx
  have := hd x hx
  simp only [Bool.and_eq_true, decide_eq_true_eq, not_and]
  intro h1 h2
  linarith

theorem windowCount_trace_le {q trace : List ℚ} {T w a : ℚ}
    (hq : QueueSuffix q trace T w) (ha : T ≤ a + w) :
    windowCount w a trace ≤ q.length := by
  obtain ⟨d, rfl, hd⟩ := hq
  rw [windowCount_append, windowCount_eq_zero_of_old hd ha, Nat.zero_add]
  exact windowCount_le_length _ _ _

theorem windowCount_single_le (w a x : ℚ) : windowCount w a [x] ≤ 1 := by
  simpa using windowCount_le_length w a [x]

theorem windowCount_single_eq_zero {w a x : ℚ} (h : ¬ (a ≤ x ∧ x ≤ a + w)) :
    windowCount w a [x] = 0 := by
  unfold windowCount
  rw [List.length_eq_zero, List.filter_eq_nil_iff]
  intro y hy
  rw [List.mem_singleton] at hy
  subst hy
  simp only [Bool.and_eq_true, decide_eq_true_eq]
  tauto

theorem longCheckStage_sleep {st1 : RateLimiter} {now t : ℚ}
    {st' : RateLimiter} {b : Bool}
    (h : longCheckStage st1 now b = LimiterPass.sleepUntil st' t) :
    st' = st1 ∧ now < t := by
  unfold longCheckStage at h
  split at h
  · split at h
    · exact LimiterPass.noConfusion h
    · split at h
      · rename_i cond
        injection h with h1 h2
        subst h1
        subst h2
        exact ⟨rfl, by linarith⟩
      · exact LimiterPass.noConfusion h
  · exact LimiterPass.noConfusion h

theorem longCheckStage_granted_false {st1 : RateLimiter} {now t : ℚ}
    {st' : RateLimiter} {b : Bool}
    (h : longCheckStage st1 now b = LimiterPass.granted st' t false) :
    b = false ∧ st' = appendNow st1 now ∧ t = now ∧
      st1.long_term_requests.length < st1.requests_per_two_minutes := by
  unfold longCheckStage at h
  split at h
  · split at h
    · exact LimiterPass.noConfusion h
    · split at h
      · exact LimiterPass.noConfusion h
      · injection h with h1 h2 h3
        exact Bool.noConfusion h3
  · rename_i cond
    injection h with h1 h2 h3
    exact ⟨h3, h1.symm, h2.symm, by omega⟩

theorem waitIfNeededPass_sleep {st : RateLimiter} {now t : ℚ}
    {st' : RateLimiter}
    (h : waitIfNeededPass st now = LimiterPass.sleepUntil st' t) :
    st' = cleanState st now ∧ now < t := by
  unfold waitIfNeededPass at h
  split at h
  · split at h
    · exact LimiterPass.noConfusion h
    · split at h
      · rename_i cond
        injection h with h1 h2
        subst h1
        subst h2
        exact ⟨rfl, by linarith⟩
      · exact longCheckStage_sleep h
  · exact longCheckStage_sleep h

theorem waitIfNeededPass_granted_false {st : RateLimiter} {now t : ℚ}
    {st' : RateLimiter}
    (h : waitIfNeededPass st now = LimiterPass.granted st' t false) :
    st' = appendNow (cleanState st now) now ∧ t = now ∧
      (cleanQueue st.short_term_requests (now - 1)).length
        < st.requests_per_second ∧
      (cleanQueue st.long_term_requests (now - 120)).length
        < st.requests_per_two_minutes := by
  unfold waitIfNeededPass at h
  split at h
  · split at h
    · exact LimiterPass.noConfusion h
    · split at h
      · exact LimiterPass.noConfusion h
      · obtain ⟨hb, _, _, _⟩ := longCheckStage_granted_false h
        exact Bool.noConfusion hb
  · rename_i hshort
    obtain ⟨hb, h1, h2, h3⟩ := longCheckStage_granted_false h
    refine ⟨h1, h2, by omega, ?_⟩
    simpa using h3

theorem limInv_clean {st : RateLimiter} {trace : List ℚ} {c now : ℚ}
    (inv : LimInv st trace c) (hc : c ≤ now) :
    LimInv (cleanState st now) trace now :=
  ⟨fun x hx => le_trans (inv.ub x hx) hc,
   queueSuffix_clean inv.qshort now hc,
   queueSuffix_clean inv.qlong now hc,
   fun a => inv.winS a,
   fun a => inv.winL a⟩

theorem limInv_granted {st : RateLimiter} {trace : List ℚ} {c now : ℚ}
    (inv : LimInv st trace c) (hc : c ≤ now)
    (hS : (cleanQueue st.short_term_requests (now - 1)).length
      < st.requests_per_second)
    (hL : (cleanQueue st.long_term_requests (now - 120)).length
      < st.requests_per_two_minutes) :
    LimInv (appendNow (cleanState st now) now) (trace ++ [now]) now := by
  have invc := limInv_clean inv hc
  refine ⟨?_, ?_, ?_, ?_, ?_⟩
  · intro x hx
    rw [List.mem_append] at hx
    rcases hx with hx | hx
    · exact invc.ub x hx
    · rw [List.mem_singleton] at hx
      exact le_of_eq hx
  · simpa using queueSuffix_append invc.qshort
  · simpa using queueSuffix_append invc.qlong
  · intro a
    simp only [appendNow_rps, cleanState_rps]
    by_cases hmem : a ≤ now ∧ now ≤ a + 1
    · have h1 : windowCount 1 a trace
          ≤ (cleanQueue st.short_term_requests (now - 1)).length :=
        windowCount_trace_le invc.qshort (by linarith [hmem.2])
      have h2 := windowCount_single_le 1 a now
      rw [windowCount_append]
      omega
    · rw [windowCount_append, windowCount_single_eq_zero hmem]
      have h3 := invc.winS a
      simp only [cleanState_rps] at h3
      omega
  · intro a
    simp only [appendNow_rp2m, cleanState_rp2m]
    by_cases hmem : a ≤ now ∧ now ≤ a + 120
    · have h1 : windowCount 120 a trace
          ≤ (cleanQueue st.long_term_requests (now - 120)).length :=
        windowCount_trace_le invc.qlong (by linarith [hmem.2])
      have h2 := windowCount_single_le 120 a now
      rw [windowCount_append]
      omega
    · rw [windowCount_append, windowCount_single_eq_zero hmem]
      have h3 := invc.winL a
      simp only [cleanState_rp2m] at h3
      omega

theorem waitIfNeeded_granted_inv {fuel : Nat} {st : RateLimiter} {now t : ℚ}
    {st' : RateLimiter} {trace : List ℚ} {c : ℚ}
    (h : waitIfNeeded fuel st now = LimiterOutcome.granted st' t false)
    (inv : LimInv st trace c) (hc : c ≤ now) :
    LimInv st' (trace ++ [t]) t ∧ now ≤ t ∧
      st'.requests_per_second = st.requests_per_second ∧
      st'.requests_per_two_minutes = st.requests_per_two_minutes := by
  induction fuel generalizing st now trace c with
  | zero =>
    rw [waitIfNeeded] at h
    exact LimiterOutcome.noConfusion h
  | succ f ih =>
    rw [waitIfNeeded] at h
    cases hp : waitIfNeededPass st now with
    | sleepUntil st1 t1 =>
      rw [hp] at h
      obtain ⟨hst1, hlt⟩ := waitIfNeededPass_sleep hp
      subst hst1
      have invc := limInv_clean inv hc
      obtain ⟨hi, ht, hc1, hc2⟩ := ih h invc (le_of_lt hlt)
      exact ⟨hi, le_trans (le_of_lt hlt) ht, hc1, hc2⟩
    | indexErr =>
      rw [hp] at h
      exact LimiterOutcome.noConfusion h
    | granted st1 t1 b =>
      rw [hp] at h
      injection h with h1 h2 h3
      subst h1
      subst h2
      subst h3
      obtain ⟨hst', ht, hS, hL⟩ := waitIfNeededPass_granted_false hp
      refine ⟨?_, ?_, ?_, ?_⟩
      · rw [hst', ht]
        exact limInv_granted inv hc hS hL
      · rw [ht]
      · rw [hst']
        rfl
      · rw [hst']
        rfl

theorem runLimiter_inv {fuel : Nat} {calls : List ℚ} {st : RateLimiter}
    {clock : ℚ} {res : List (ℚ × Bool)} {trace : List ℚ}
    (h : runLimiter fuel st clock calls = some res)
    (inv : LimInv st trace clock)
    (hb : ∀ p ∈ res, p.2 = false) :
    ∃ st2, ∃ c2, LimInv st2 (trace ++ res.map Prod.fst) c2 ∧
      st2.requests_per_second = st.requests_per_second ∧
      st2.requests_per_two_minutes = st.requests_per_two_minutes := by
  induction calls generalizing st clock res trace with
  | nil =>
    rw [runLimiter] at h
    injection h with h1
    subst h1
    exact ⟨st, clock, by simpa using inv, rfl, rfl⟩
  | cons t ts ih =>
    rw [runLimiter] at h
    cases hw : waitIfNeeded fuel st (if clock ≤ t then t else clock) with
    | granted st1 t1 b =>
      simp only [hw] at h
      cases hr : runLimiter fuel st1 t1 ts with
      | none =>
        simp only [hr] at h
        exact Option.noConfusion h
      | some rest =>
        simp only [hr] at h
        injection h with h1
        subst h1
        have hb1 : b = false := hb (t1, b) (List.mem_cons_self _ _)
        subst hb1
        have hcnow : clock ≤ (if clock ≤ t then t else clock) := by
          split
          · assumption
          · exact le_refl clock
        obtain ⟨hi, _, hc1, hc2⟩ := waitIfNeeded_granted_inv hw inv hcnow
        obtain ⟨st2, c2, hinv2, hd1, hd2⟩ :=
          ih hr hi (fun p hp => hb p (List.mem_cons_of_mem _ hp))
        refine ⟨st2, c2, ?_, hd1.trans hc1, hd2.trans hc2⟩
        simpa [List.append_assoc] using hinv2
    | indexErr =>
      simp only [hw] at h
      exact Option.noConfusion h
    | fuelOut =>
      simp only [hw] at h
      exact Option.noConfusion h

/-- C8 amended: for every sequence of wait_if_needed calls against one
limiter in which no admission is granted through the exact window-boundary
fall-through (the computed wait time of a full window being exactly zero —
every recorded boundary flag is false), the recorded admission timestamps
never contain more than the per-second capacity in any closed one-second
window, nor more than the two-minute capacity in any closed two-minute
window. -/
theorem C8_no_overflow_without_boundary_fallthrough
    (rps rp2m fuel : Nat) (c0 : ℚ) (calls : List ℚ)
    (res : List (ℚ × Bool))
    (h : runLimiter fuel (rateLimiterInit rps rp2m) c0 calls = some res)
    (hb : ∀ p ∈ res, p.2 = false) (a : ℚ) :
    windowCount 1 a (res.map Prod.fst) ≤ rps ∧
      windowCount 120 a (res.map Prod.fst) ≤ rp2m := by
  have inv0 : LimInv (rateLimiterInit rps rp2m) [] c0 := by
    refine ⟨?_, ⟨[], rfl, ?_⟩, ⟨[], rfl, ?_⟩, ?_, ?_⟩
    · intro x hx
      exact absurd hx (List.not_mem_nil x)
    · intro x hx
      exact absurd hx (List.not_mem_nil x)
    · intro x hx
      exact absurd hx (List.not_mem_nil x)
    · intro b
      simp [windowCount, rateLimiterInit]
    · intro b
      simp [windowCount, rateLimiterInit]
  obtain ⟨st2, c2, hinv, hcap1, hcap2⟩ := runLimiter_inv h inv0 hb
  rw [List.nil_append] at hinv
  constructor
  · have := hinv.winS a
    rw [hcap1] at this
    exact this
  · have := hinv.winL a
    rw [hcap2] at this
    exact this

/-- C8 amended, witness: three calls at instants 0, 2 and 4 against a
limiter with capacities 1 per second and 100 per two minutes are admitted
without any boundary fall-through, and their window counts respect both
capacities. -/
theorem C8_no_overflow_witness :
    windowCount 1 0 ([((0 : ℚ), false), (2, false), (4, false)].map Prod.fst) ≤ 1 ∧
      windowCount 120 0
        ([((0 : ℚ), false), (2, false), (4, false)].map Prod.fst) ≤ 100 :=
  C8_no_overflow_without_boundary_fallthrough 1 100 10 0 [0, 2, 4]
    [(0, false), (2, false), (4, false)]
    (by norm_num [runLimiter, waitIfNeeded, waitIfNeededPass, longCheckStage,
      cleanQueue, cleanState, appendNow, rateLimiterInit, List.dropWhile])
    (by simp) 0

/-- C9 counterexample: constructing a rate limiter with a zero window limit
does not fail — RateLimiter.__init__ (riot_client.py lines 18-24) has no
validation and yields an ordinary limiter state; the very first admission
attempt then dies indexing the empty queue (line 41) instead of admitting. -/
theorem C9_zero_limit_construction_succeeds :
    rateLimiterInit 0 100 =
        { requests_per_second := 0, requests_per_two_minutes := 100,
          short_term_requests := [], long_term_requests := [] } ∧
      waitIfNeeded 1 (rateLimiterInit 0 100) 0 = LimiterOutcome.indexErr := by
  constructor
  · rfl
  · norm_num [waitIfNeeded, waitIfNeededPass, longCheckStage, cleanQueue,
      rateLimiterInit]

/-- C9 amended: a zero window limit (on either window) is accepted by the
constructor, and every subsequent wait_if_needed call on the fresh limiter
fails with an index error on the empty queue of the zero-capacity window —
it neither admits the request nor treats the capacity as infinite. -/
theorem C9_zero_limit_first_call_errors (rps rp2m fuel : Nat) (now : ℚ)
    (h : rps = 0 ∨ rp2m = 0) (hf : 0 < fuel) :
    waitIfNeeded fuel (rateLimiterInit rps rp2m) now = LimiterOutcome.indexErr := by
  obtain ⟨f, rfl⟩ : ∃ f, fuel = f + 1 := ⟨fuel - 1, by omega⟩
  rcases h with rfl | rfl
  · simp [waitIfNeeded, waitIfNeededPass, rateLimiterInit, cleanQueue]
  · by_cases hs : rps = 0
    · subst hs
      simp [waitIfNeeded, waitIfNeededPass, rateLimiterInit, cleanQueue]
    · simp [waitIfNeeded, waitIfNeededPass, longCheckStage, rateLimiterInit,
        cleanQueue, cleanState, Nat.le_zero, hs]

/-- C9 amended, witness. -/
theorem C9_zero_limit_first_call_errors_witness :
    waitIfNeeded 1 (rateLimiterInit 0 5) 0 = LimiterOutcome.indexErr :=
  C9_zero_limit_first_call_errors 0 5 1 0 (Or.inl rfl) (by omega)

/-- C8 counterexample: with a short-window capacity of 1, sequential calls at
instants 0, 1 and 1 are all admitted (the full-window check falls through
when the oldest retained timestamp is exactly one window length old, because
the computed wait time is exactly zero, riot_client.py lines 41-44), so the
recorded admission timestamps 0, 1, 1 put three admissions — more than the
capacity 1 — inside the one-second window starting at 0. -/
theorem C8_window_capacity_exceeded_at_boundary :
    runLimiter 10 (rateLimiterInit 1 100) 0 [0, 1, 1]
        = some [(0, false), (1, true), (1, true)] ∧
      1 < windowCount 1 0 ([((0 : ℚ), false), (1, true), (1, true)].map Prod.fst) := by
  constructor
  · norm_num [runLimiter, waitIfNeeded, waitIfNeededPass, longCheckStage,
      cleanQueue, cleanState, appendNow, rateLimiterInit, List.dropWhile]
  · norm_num [windowCount, List.filter]

/-- C5: update_status evaluated at the failing input.  Starting a new run
(status running) for a team whose previous run failed leaves the stale
error_message in place, because the clearing branch of update_status
(team_refresh_status.py line 44) only fires while started_at is still null.
The row now reads status running with a non-null error_message, violating the
claimed invariant. -/
theorem C5_update_status_keeps_stale_error :
    (updateStatus failedRunRow 300 (some "running") none none none).status
        = "running" ∧
      (updateStatus failedRunRow 300 (some "running") none none none).error_message
        = some "boom" := by
  constructor <;> rfl

/-- C10: when a run aborts, refresh_team_data (team_refresh_service.py lines
116-124) calls update_status with only status failed and the error text.  The
resulting row changes exactly status, completed_at, error_message (and the
automatic updated_at column); phase and progress_percent keep the last values
written before the failure. -/
theorem C10_failed_write_preserves_phase_and_progress
    (row : RefreshStatusRow) (now : Int) (e : String) :
    updateStatus row now (some "failed") none none (some e) =
      { row with status := "failed", completed_at := some now,
                 error_message := some e, updated_at := now } := by
  cases row
  simp [updateStatus]

/-- C3 counterexample: a running row five minutes stale is reset by
cleanup_stuck_refreshes to idle and progress 0, but its error_message is set
to the string Reset due to server restart (app/__init__.py line 118), not to
null as the claim states. -/
theorem C3_reset_sets_nonnull_error :
    (resetStuck 301 staleRunningRow).status = "idle" ∧
      (resetStuck 301 staleRunningRow).progress_percent = 0 ∧
      (resetStuck 301 staleRunningRow).error_message ≠ none := by
  refine ⟨rfl, rfl, ?_⟩
  decide

/-- C3 amended: on startup, every running row whose updated_at is older than
the five-minute threshold is reset to status idle, phase idle, progress 0 and
the fixed explanatory (non-null) error message Reset due to server restart;
all other rows are left unchanged. -/
theorem C3_cleanup_resets_stale_rows (now : Int) (rows : List RefreshStatusRow) :
    cleanupStuckRefreshes now rows = rows.map (resetStuck now) ∧
      (∀ r : RefreshStatusRow, r.status = "running" → r.updated_at < now - 300 →
        resetStuck now r =
          { r with status := "idle", phase := some "idle", progress_percent := 0,
                   error_message := some "Reset due to server restart" }) ∧
      (∀ r : RefreshStatusRow,
        ¬ (r.status = "running" ∧ r.updated_at < now - 300) →
        resetStuck now r = r) := by
  refine ⟨rfl, ?_, ?_⟩
  · intro r h1 h2
    simp [resetStuck, h1, h2]
  · intro r h
    simp only [resetStuck, if_neg h]

/-- C3 amended, witness: the concrete stale row is reset as described. -/
theorem C3_cleanup_resets_stale_rows_witness :
    resetStuck 301 staleRunningRow =
      { staleRunningRow with status := "idle", phase := some "idle",
                             progress_percent := 0,
                             error_message := some "Reset due to server restart" } :=
  (C3_cleanup_resets_stale_rows 301 []).2.1 staleRunningRow rfl (by decide)

/-- C6: triggering a refresh for an existing team whose status row reads
running returns the already-in-progress message and launches no pipeline run;
for any other status exactly one background pipeline run is launched and the
call returns the started message (refresh_scheduler.py lines 100-128). -/
theorem C6_single_flight (row : RefreshStatusRow) :
    (row.status = "running" →
      refreshSingleTeam true row = Except.ok ("Refresh already in progress", 0)) ∧
    (row.status ≠ "running" →
      refreshSingleTeam true row = Except.ok ("Refresh started", 1)) := by
  constructor
  · intro h
    simp [refreshSingleTeam, h]
  · intro h
    simp [refreshSingleTeam, h]

/-- C6 witness: on a running row nothing is started; on a fresh idle row one
run is started. -/
theorem C6_single_flight_witness :
    refreshSingleTeam true staleRunningRow
        = Except.ok ("Refresh already in progress", 0) ∧
      refreshSingleTeam true (freshRow 3 0) = Except.ok ("Refresh started", 1) :=
  ⟨(C6_single_flight staleRunningRow).1 rfl,
   (C6_single_flight (freshRow 3 0)).2 (by decide)⟩

end Thunderclap
